import Mathlib

/-!
Shallow embedding of `swiftly/cli/cli.py` (the `CLI` front controller):
option resolution (`_resolve_option` and the resolution loops of
`_parse_args`), backend selection (the tail of `_parse_args`), and command
dispatch (`__call__` / `_perform_command`).

Python attribute stores (`options`), `os.environ` and the loaded
configuration are modelled as association lists; Python `None` and dynamic
typing of option values are modelled by the `PyVal` sum; exceptions that
escape `_parse_args` (which nothing in `cli.py` catches) are modelled by
`Except PyError`.
-/

namespace Swiftly

/-- A Python value as it can appear in an option attribute: `None`, a
string, a bool (from `store_true` flags or coercion), or an int. -/
inductive PyVal where
  | none
  | str (s : String)
  | bool (b : Bool)
  | int (n : Int)
deriving DecidableEq, Repr

/-- The optparse `options` object: attribute name to value.  A name absent
from the list reads as `PyVal.none`, matching `getattr(options, name, None)`
(optparse initialises every declared dest to `None` anyway). -/
abbrev Options := List (String × PyVal)

def lookupPyVal : List (String × PyVal) → String → PyVal
  | [], _ => PyVal.none
  | p :: rest, n => if p.1 == n then p.2 else lookupPyVal rest n

/-- Python `getattr(options, name, None)`. -/
def getattr (o : Options) (name : String) : PyVal := lookupPyVal o name

/-- Python `setattr(options, name, v)`. -/
def setattr (o : Options) (name : String) (v : PyVal) : Options := (name, v) :: o

/-- The process environment `os.environ`. -/
structure Env where
  vars : List (String × String)
deriving DecidableEq, Repr

/-- Python `os.environ.get(key)` (no default: absent gives `none`). -/
def Env.get (env : Env) (key : String) : Option String :=
  (env.vars.find? (fun p => p.1 == key)).map (fun p => p.2)

/-- The loaded configuration `self.context.conf`: section name to key/value mapping. -/
structure Conf where
  sections : List (String × List (String × String))
deriving DecidableEq, Repr

/-- Python `self.context.conf.get(section, {}).get(key)`. -/
def Conf.get (c : Conf) (sec key : String) : Option String :=
  match c.sections.find? (fun p => p.1 == sec) with
  | some p => (p.2.find? (fun q => q.1 == key)).map (fun q => q.2)
  | Option.none => Option.none

/-- The on-disk configuration file as seen by `SafeConfigParser.read`:
either parseable content, or malformed content (raising
`ConfigParserError`), or an unreadable/absent file (silently skipped). -/
inductive ConfFile where
  | readable (sections : List (String × List (String × String)))
  | malformed
  | unreadable
deriving DecidableEq, Repr

/-- Lines 297-306 of `_parse_args`: `self.context.conf` starts empty; a
parse error is swallowed (`except ConfigParserError: pass`) before any
section is copied, and an unreadable file is skipped by
`SafeConfigParser.read`, so both degrade to the empty store. -/
def loadConf : ConfFile → Conf
  | ConfFile.readable secs => { sections := secs }
  | ConfFile.malformed => { sections := [] }
  | ConfFile.unreadable => { sections := [] }

/-- The module constant `TRUE_VALUES`: lowercase strings that coerce to True. -/
def TRUE_VALUES : List String := ["1", "on", "t", "true", "y", "yes"]

/-- ASCII upper-casing of one character (the option names involved are all
ASCII, so this matches Python `str.upper`). -/
def charUpper (c : Char) : Char :=
  if 'a' ≤ c ∧ c ≤ 'z' then Char.ofNat (c.toNat - 32) else c

/-- ASCII lower-casing of one character (matches Python `str.lower` on the
ASCII option values involved). -/
def charLower (c : Char) : Char :=
  if 'A' ≤ c ∧ c ≤ 'Z' then Char.ofNat (c.toNat + 32) else c

/-- Python `s.upper()` (ASCII). -/
def strUpper (s : String) : String := String.mk (s.data.map charUpper)

/-- Python `s.lower()` (ASCII). -/
def strLower (s : String) : String := String.mk (s.data.map charLower)

/-- Python `s.startswith(p)`. -/
def strStartsWith (s p : String) : Bool := p.data.isPrefixOf s.data

/-- Python truthiness of an option value (`if options.x:`). -/
def truthy : PyVal → Bool
  | PyVal.none => false
  | PyVal.str s => s != ""
  | PyVal.bool b => b
  | PyVal.int n => n != 0

/-- Whitespace as stripped by Python `int()` around its argument. -/
def isPySpace (c : Char) : Bool :=
  c == ' ' || c == '\t' || c == '\n' || c == '\x0d' || c == '\x0b' || c == '\x0c'

/-- Strip leading and trailing whitespace from a character list. -/
def trimChars (l : List Char) : List Char :=
  ((l.dropWhile isPySpace).reverse.dropWhile isPySpace).reverse

/-- A nonempty all-decimal-digit character list. -/
def isDigits (l : List Char) : Bool := !l.isEmpty && l.all Char.isDigit

/-- The value of a decimal digit list. -/
def digitsVal (l : List Char) : Nat :=
  l.foldl (fun n c => n * 10 + (c.toNat - 48)) 0

/-- Python `int(s)` on a string: optional surrounding whitespace, optional
sign, decimal digits; anything else raises `ValueError` (modelled as
`none`). -/
def pythonInt (s : String) : Option Int :=
  match trimChars s.data with
  | '-' :: rest => if isDigits rest then some (-(digitsVal rest : Int)) else Option.none
  | '+' :: rest => if isDigits rest then some ((digitsVal rest : Int)) else Option.none
  | t => if isDigits t then some ((digitsVal t : Int)) else Option.none

/-- An exception escaping `_parse_args` / `__call__`; nothing in `cli.py`
catches these, so they propagate out of `CLI.__call__`. -/
inductive PyError where
  | valueError (s : String)
  | typeError (s : String)
  | indexError
deriving DecidableEq, Repr

/-- Python `int(v)` on an arbitrary option value (line 384 and line 417 of
`_parse_args`): ints pass through, bools are 0/1, strings are parsed
(`ValueError` if malformed), `None` raises `TypeError`. -/
def pyIntCall : PyVal → Except PyError Int
  | PyVal.int n => Except.ok n
  | PyVal.bool b => Except.ok (if b then 1 else 0)
  | PyVal.str s =>
    match pythonInt s with
    | some n => Except.ok n
    | Option.none => Except.error (PyError.valueError s)
  | PyVal.none =>
    Except.error (PyError.typeError "int() argument must be a string or a number")

/-- The option names resolved through the cascade (lines 308-314). -/
def mainOptionNames : List String :=
  ["auth_url", "auth_user", "auth_key", "auth_tenant",
   "auth_methods", "region", "direct", "local", "proxy", "snet",
   "no_snet", "retries", "cache_auth", "no_cache_auth", "cdn",
   "no_cdn", "concurrency", "eventlet", "no_eventlet", "verbose",
   "no_verbose", "direct_object_ring"]

/-- The boolean-coerced option names (lines 315-317). -/
def boolOptionNames : List String :=
  ["snet", "no_snet", "cache_auth", "no_cache_auth", "cdn",
   "no_cdn", "eventlet", "no_eventlet", "verbose", "no_verbose"]

/-- The integer-coerced option names (line 322). -/
def intOptionNames : List String := ["retries", "concurrency"]

/-- The built-in defaults applied at lines 326-349, in source order. -/
def optionDefaults : List (String × PyVal) :=
  [("snet", PyVal.bool false), ("no_snet", PyVal.bool false),
   ("retries", PyVal.int 4),
   ("cache_auth", PyVal.bool false), ("no_cache_auth", PyVal.bool false),
   ("cdn", PyVal.bool false), ("no_cdn", PyVal.bool false),
   ("concurrency", PyVal.int 1),
   ("eventlet", PyVal.bool false), ("no_eventlet", PyVal.bool false),
   ("verbose", PyVal.bool false), ("no_verbose", PyVal.bool false)]

/-- Method `CLI._resolve_option(options, option_name, section_name)`: keep a
non-`None` value already in `options`; otherwise take
`os.environ.get(environ_name, conf.get(section_name, {}).get(conf_name))`,
where the names are computed exactly as at lines 436-441. -/
def resolveOption (env : Env) (conf : Conf) (o : Options)
    (optionName sectionName : String) : Options :=
  if getattr o optionName ≠ PyVal.none then o
  else
    let environName :=
      if strStartsWith optionName (sectionName ++ "_") then strUpper optionName
      else strUpper (sectionName ++ "_" ++ optionName)
    let confName :=
      if strStartsWith optionName (sectionName ++ "_") then
        optionName.drop (sectionName.length + 1)
      else optionName
    let v : Option String :=
      match Env.get env environName with
      | some s => some s
      | Option.none => Conf.get conf sectionName confName
    setattr o optionName
      (match v with | some s => PyVal.str s | Option.none => PyVal.none)

/-- The resolution loop at lines 308-314. -/
def resolveAll (env : Env) (conf : Conf) (o : Options) : Options :=
  mainOptionNames.foldl (fun acc n => resolveOption env conf acc n "swiftly") o

/-- One step of the boolean coercion loop (lines 315-321): only a string
value (`isinstance(..., basestring)`) is replaced, by membership of its
lower-casing in `TRUE_VALUES`. -/
def coerceBool (o : Options) (name : String) : Options :=
  match getattr o name with
  | PyVal.str s => setattr o name (PyVal.bool (TRUE_VALUES.contains (strLower s)))
  | _ => o

/-- The boolean coercion loop over `boolOptionNames`. -/
def coerceBools (o : Options) : Options := boolOptionNames.foldl coerceBool o

/-- One step of the integer coercion loop (lines 322-325): only a string
value is replaced, by `int(...)`, which raises on a malformed string. -/
def coerceInt (o : Options) (name : String) : Except PyError Options :=
  match getattr o name with
  | PyVal.str s =>
    match pythonInt s with
    | some n => Except.ok (setattr o name (PyVal.int n))
    | Option.none => Except.error (PyError.valueError s)
  | _ => Except.ok o

/-- The integer coercion loop, option by option: the first raised
`ValueError` aborts the loop (and, uncaught, the whole parse). -/
def coerceIntsAux : List String → Options → Except PyError Options
  | [], o => Except.ok o
  | n :: rest, o =>
    match coerceInt o n with
    | Except.error e => Except.error e
    | Except.ok o2 => coerceIntsAux rest o2

/-- The integer coercion loop over `intOptionNames`. -/
def coerceInts (o : Options) : Except PyError Options :=
  coerceIntsAux intOptionNames o

/-- The default-filling statements at lines 326-349: each sets its option
only when the resolved value is still `None`. -/
def applyDefaults (o : Options) : Options :=
  optionDefaults.foldl
    (fun acc p => if getattr acc p.1 = PyVal.none then setattr acc p.1 p.2 else acc) o

/-- The whole resolution phase of `_parse_args` (lines 297-349): load the
configuration, run the cascade for every main option, coerce booleans and
integers, then fill defaults.  A malformed integer string escapes as an
uncaught `ValueError`. -/
def resolvedOptions (cliOptions : Options) (env : Env) (confFile : ConfFile) :
    Except PyError Options :=
  let conf := loadConf confFile
  let o := resolveAll env conf cliOptions
  let o := coerceBools o
  match coerceInts o with
  | Except.error e => Except.error e
  | Except.ok o2 => Except.ok (applyDefaults o2)

/-- Lines 351-364: `context.eventlet` is True when `options.eventlet` is
truthy, False when `options.no_eventlet` is truthy (the later `if` wins),
and otherwise falls back to the advisory import probe (here a parameter:
eventlet installed with version at least 0.11.0). -/
def contextEventlet (o : Options) (eventletImportOk : Bool) : Bool :=
  if truthy (getattr o "no_eventlet") then false
  else if truthy (getattr o "eventlet") then true
  else eventletImportOk

/-- Python `os.path.join(a, b)` for POSIX paths with two components. -/
def osPathJoin (a b : String) : String :=
  if strStartsWith b "/" then b
  else if a = "" ∨ strStartsWith (String.mk a.data.reverse) "/" then a ++ b
  else a ++ "/" ++ b

/-- Lines 398-401: `os.path.join(tempfile.gettempdir(), '%s.swiftly' %
os.environ.get('USER', 'user'))`. -/
def authCachePathFor (tempdir : String) (env : Env) : String :=
  osPathJoin tempdir (((Env.get env "USER").getD "user") ++ ".swiftly")

/-- The `ClientManager(...)` constructions at lines 387-414: which client
class is chosen and exactly the option-derived arguments passed to it
(`verbose=self._verbose` and the io plumbing are external and carry no
option data). -/
inductive Backend where
  | localClient (localPath : PyVal)
  | directClient (swiftProxyStoragePath : PyVal) (attempts : Int)
      (eventlet : Bool) (directObjectRing : PyVal)
  | standardClient (authMethods : PyVal) (authUrl : PyVal) (authTenant : PyVal)
      (authUser : PyVal) (authKey : PyVal) (authCachePath : Option String)
      (region : PyVal) (snet : PyVal) (attempts : Int) (eventlet : Bool)
      (httpProxy : PyVal)
deriving DecidableEq, Repr

/-- Outcome of the tail of `_parse_args` (lines 385-419): the `help`
bypass returns `(options, args)` with no backend; a constructed backend
returns `(options, args)` with `context.client_manager` set; the missing
auth URL writes its message to stderr and returns `(None, None)`. -/
inductive ParseOutcome where
  | helpBypass (o : Options) (args : List String)
  | proceed (b : Backend) (o : Options) (args : List String)
  | failure (stderrMsg : String)
deriving DecidableEq, Repr

/-- Lines 385-414 of `_parse_args`: the `help` bypass, then the
`local` / `direct` / standard selection chain.  `retries` is the integer
computed at line 384; `eventletUsed` is `self.context.eventlet`. -/
def backendPhase (o : Options) (args : List String) (env : Env)
    (eventletUsed : Bool) (tempdir : String) (retries : Int) : ParseOutcome :=
  if args.head? == some "help" then ParseOutcome.helpBypass o args
  else if truthy (getattr o "local") then
    ParseOutcome.proceed (Backend.localClient (getattr o "local")) o args
  else if truthy (getattr o "direct") then
    ParseOutcome.proceed
      (Backend.directClient (getattr o "direct") (retries + 1) eventletUsed
        (getattr o "direct_object_ring")) o args
  else
    let authCachePath : Option String :=
      if truthy (getattr o "cache_auth") then some (authCachePathFor tempdir env)
      else Option.none
    if truthy (getattr o "auth_url") = false then
      ParseOutcome.failure "No Auth URL has been given.\n"
    else
      ParseOutcome.proceed
        (Backend.standardClient (getattr o "auth_methods") (getattr o "auth_url")
          (getattr o "auth_tenant") (getattr o "auth_user") (getattr o "auth_key")
          authCachePath (getattr o "region") (getattr o "snet") (retries + 1)
          eventletUsed (getattr o "proxy")) o args

/-- Method `_parse_args` from line 297 on: resolution phase, `context.eventlet`,
`options.retries = int(options.retries)` (line 384), then the backend
phase.  Exceptions propagate (nothing catches them). -/
def parseArgsTail (cliOptions : Options) (args : List String) (env : Env)
    (confFile : ConfFile) (eventletImportOk : Bool) (tempdir : String) :
    Except PyError ParseOutcome :=
  match resolvedOptions cliOptions env confFile with
  | Except.error e => Except.error e
  | Except.ok o =>
    let ev := contextEventlet o eventletImportOk
    match pyIntCall (getattr o "retries") with
    | Except.error e => Except.error e
    | Except.ok retries =>
      Except.ok
        (backendPhase (setattr o "retries" (PyVal.int retries)) args env ev
          tempdir retries)

/-- An exception raised by a dispatched command, as probed by
`_perform_command`: `text` is `some t` when the object has a `text`
attribute (possibly the empty string) and `none` when it has no such
attribute; `code` likewise models the optional `code` attribute. -/
structure PyException where
  text : Option String
  code : Option Int
deriving DecidableEq, Repr

/-- What one `_perform_command` call did: bytes written to stderr, the
returned exit code, and which command (if any) was actually invoked. -/
structure PerformResult where
  stderr : String
  exitCode : Int
  dispatched : Option String
deriving DecidableEq, Repr

/-- Python `repr` of an ordinary string with no quotes or escapes in it,
as used by `'ERROR unknown command %r\n' % args[0]`. -/
def pyReprStr (s : String) : String := "'" ++ s ++ "'"

/-- Modelled from the spec: the command names of the registry.  The
`CLICommand` classes listed in `COMMANDS` (swiftly.cli.auth and so on) are
not under src/, so their `name` attributes are taken from the spec's
command list `auth, decrypt, delete, encrypt, fordo (alias "for"), get,
head, help, ping, post, put, tempurl, trans`. -/
def commandNames : List String :=
  ["auth", "decrypt", "delete", "encrypt", "fordo", "get", "head", "help",
   "ping", "post", "put", "tempurl", "trans"]

/-- Modelled from the spec: the external help subcommand
(`swiftly.cli.help.CLIHelp`, not under src/) renders the aggregated help
text and completes without raising. -/
def helpCommandRun : List String → Option PyException := fun _ => Option.none

/-- Method `CLI._perform_command(args)` for `args = args0 :: rest`.  The command
bodies are external collaborators: `run c rest` is `self.commands[c](rest)`,
returning `none` on success or the raised exception.  `tracebackText`
stands for `traceback.format_exc()` of that exception. -/
def performCommand (registry : List String)
    (run : String → List String → Option PyException)
    (tracebackText : String) (args0 : String) (rest : List String) :
    PerformResult :=
  let command := if args0 == "for" then "fordo" else args0
  if registry.contains command = false then
    { stderr := "ERROR unknown command " ++ pyReprStr args0 ++ "\n",
      exitCode := 1, dispatched := Option.none }
  else
    match run command rest with
    | Option.none => { stderr := "", exitCode := 0, dispatched := some command }
    | some err =>
      let out :=
        match err.text with
        | some t => if t != "" then "ERROR " ++ t ++ "\n" else ""
        | Option.none => tracebackText ++ "\n"
      { stderr := out, exitCode := err.code.getD 1, dispatched := some command }

/-- Result of a completed `CLI.__call__`: exit code, stderr bytes written
by this layer, and the command dispatched (if any). -/
structure CallResult where
  exitCode : Int
  stderr : String
  dispatched : Option String
deriving DecidableEq, Repr

/-- Method `CLI.__call__` from the point `_parse_args` reaches line 297 (the
earlier optparse/usage checks carry no option data): `if not options:
return 1`, else `_perform_command(args)`.  An exception escaping
`_parse_args` escapes `__call__` too. -/
def cliCall (cliOptions : Options) (args : List String) (env : Env)
    (confFile : ConfFile) (eventletImportOk : Bool) (tempdir : String)
    (run : String → List String → Option PyException) (tracebackText : String) :
    Except PyError CallResult :=
  match parseArgsTail cliOptions args env confFile eventletImportOk tempdir with
  | Except.error e => Except.error e
  | Except.ok (ParseOutcome.failure msg) =>
    Except.ok { exitCode := 1, stderr := msg, dispatched := Option.none }
  | Except.ok (ParseOutcome.helpBypass _ args2) =>
    match args2 with
    | [] => Except.error PyError.indexError
    | a0 :: rest =>
      let r := performCommand commandNames run tracebackText a0 rest
      Except.ok { exitCode := r.exitCode, stderr := r.stderr,
                  dispatched := r.dispatched }
  | Except.ok (ParseOutcome.proceed _ _ args2) =>
    match args2 with
    | [] => Except.error PyError.indexError
    | a0 :: rest =>
      let r := performCommand commandNames run tracebackText a0 rest
      Except.ok { exitCode := r.exitCode, stderr := r.stderr,
                  dispatched := r.dispatched }

/-- The backend of a `proceed` outcome. -/
def outcomeBackend : ParseOutcome → Option Backend
  | ParseOutcome.proceed b _ _ => some b
  | _ => Option.none

/-- The final options of a non-failure outcome. -/
def outcomeOptions : ParseOutcome → Option Options
  | ParseOutcome.helpBypass o _ => some o
  | ParseOutcome.proceed _ o _ => some o
  | _ => Option.none

/-- The backend of a successful `parseArgsTail`. -/
def exceptBackend : Except PyError ParseOutcome → Option Backend
  | Except.ok out => outcomeBackend out
  | Except.error _ => Option.none

/-- The final options of a successful `parseArgsTail`. -/
def exceptOptions : Except PyError ParseOutcome → Option Options
  | Except.ok out => outcomeOptions out
  | Except.error _ => Option.none

/-- The `snet` argument of a standard-client construction. -/
def backendSnet : Backend → Option PyVal
  | Backend.standardClient _ _ _ _ _ _ _ s _ _ _ => some s
  | _ => Option.none

/-- The `auth_cache_path` argument of a standard-client construction. -/
def backendAuthCachePath : Backend → Option (Option String)
  | Backend.standardClient _ _ _ _ _ acp _ _ _ _ _ => some acp
  | _ => Option.none

/-- The options produced by a resolution run with nothing supplied
anywhere (used as a concrete instantiation in closed statements). -/
def emptyResolved : Options :=
  ((resolvedOptions [] { vars := [] } (ConfFile.readable [])).toOption).getD []

/-! ### Basic lemmas about the attribute store -/

theorem getattr_setattr_self (o : Options) (n : String) (v : PyVal) :
    getattr (setattr o n v) n = v := by
  simp [getattr, setattr, lookupPyVal]

theorem getattr_setattr_ne (o : Options) (n m : String) (v : PyVal)
    (h : m ≠ n) : getattr (setattr o n v) m = getattr o m := by
  simp [getattr, setattr, lookupPyVal, Ne.symm h]

theorem resolveOption_of_present (env : Env) (conf : Conf) (o : Options)
    (n s : String) (h : getattr o n ≠ PyVal.none) :
    resolveOption env conf o n s = o := by
  simp [resolveOption, h]

theorem getattr_resolveOption_ne (env : Env) (conf : Conf) (o : Options)
    (n s m : String) (h : m ≠ n) :
    getattr (resolveOption env conf o n s) m = getattr o m := by
  unfold resolveOption
  split
  · rfl
  · exact getattr_setattr_ne _ _ _ _ h

theorem getattr_foldl_resolveOption (env : Env) (conf : Conf)
    (names : List String) (o : Options) (n : String)
    (h : getattr o n ≠ PyVal.none) :
    getattr (names.foldl (fun acc x => resolveOption env conf acc x "swiftly") o) n
      = getattr o n := by
  induction names generalizing o with
  | nil => rfl
  | cons x xs ih =>
    have h2 : getattr (resolveOption env conf o x "swiftly") n = getattr o n := by
      by_cases hx : n = x
      · subst hx; rw [resolveOption_of_present env conf o n "swiftly" h]
      · exact getattr_resolveOption_ne env conf o x "swiftly" n hx
    simp only [List.foldl_cons]
    rw [ih (resolveOption env conf o x "swiftly") (by rw [h2]; exact h), h2]

theorem getattr_coerceBool_ne (o : Options) (n m : String) (h : m ≠ n) :
    getattr (coerceBool o n) m = getattr o m := by
  unfold coerceBool
  split
  · exact getattr_setattr_ne _ _ _ _ h
  · rfl

theorem getattr_foldl_coerceBool (names : List String) (o : Options)
    (n : String) (h : ∀ x ∈ names, n ≠ x) :
    getattr (names.foldl coerceBool o) n = getattr o n := by
  induction names generalizing o with
  | nil => rfl
  | cons x xs ih =>
    simp only [List.foldl_cons]
    rw [ih (coerceBool o x) (fun y hy => h y (List.mem_cons_of_mem x hy)),
      getattr_coerceBool_ne o x n (h x (List.mem_cons_self x xs))]

theorem coerceIntsAux_cons (n : String) (rest : List String) (o : Options) :
    coerceIntsAux (n :: rest) o =
      match coerceInt o n with
      | Except.error e => Except.error e
      | Except.ok o2 => coerceIntsAux rest o2 := rfl

theorem coerceInt_malformed (o : Options) (n s : String)
    (hs : getattr o n = PyVal.str s) (hm : pythonInt s = Option.none) :
    coerceInt o n = Except.error (PyError.valueError s) := by
  unfold coerceInt
  rw [hs]
  dsimp only
  rw [hm]

theorem coerceInt_error_inv (o : Options) (n : String) (e : PyError)
    (he : coerceInt o n = Except.error e) :
    ∃ t, getattr o n = PyVal.str t ∧ pythonInt t = Option.none
      ∧ e = PyError.valueError t := by
  unfold coerceInt at he
  cases hg : getattr o n with
  | str s =>
    rw [hg] at he
    dsimp only at he
    cases hp : pythonInt s with
    | some k =>
      rw [hp] at he
      exact Except.noConfusion he
    | none =>
      rw [hp] at he
      dsimp only at he
      injection he with h2
      exact ⟨s, rfl, hp, h2.symm⟩
  | none => rw [hg] at he; exact Except.noConfusion he
  | bool b => rw [hg] at he; exact Except.noConfusion he
  | int k => rw [hg] at he; exact Except.noConfusion he

theorem getattr_coerceInt_ok_ne (o o2 : Options) (n m : String) (h : m ≠ n)
    (hok : coerceInt o n = Except.ok o2) : getattr o2 m = getattr o m := by
  unfold coerceInt at hok
  cases hg : getattr o n with
  | str s =>
    rw [hg] at hok
    dsimp only at hok
    cases hp : pythonInt s with
    | some k =>
      rw [hp] at hok
      dsimp only at hok
      injection hok with h2
      rw [← h2]
      exact getattr_setattr_ne o n m (PyVal.int k) h
    | none =>
      rw [hp] at hok
      exact Except.noConfusion hok
  | none => rw [hg] at hok; dsimp only at hok; injection hok with h2; rw [← h2]
  | bool b => rw [hg] at hok; dsimp only at hok; injection hok with h2; rw [← h2]
  | int k => rw [hg] at hok; dsimp only at hok; injection hok with h2; rw [← h2]

theorem coerceInts_malformed (o2 : Options) (n : String)
    (hn : n ∈ intOptionNames) (s : String) (hs : getattr o2 n = PyVal.str s)
    (hm : pythonInt s = Option.none) :
    ∃ t, pythonInt t = Option.none
      ∧ coerceInts o2 = Except.error (PyError.valueError t) := by
  have hn2 : n = "retries" ∨ n = "concurrency" := by
    simp [intOptionNames] at hn
    exact hn
  cases hr : coerceInt o2 "retries" with
  | error e =>
    obtain ⟨t, hgt, hpt, het⟩ := coerceInt_error_inv o2 "retries" e hr
    refine ⟨t, hpt, ?_⟩
    unfold coerceInts intOptionNames
    rw [coerceIntsAux_cons, hr, het]
  | ok o3 =>
    have hnc : n = "concurrency" := by
      rcases hn2 with h | h
      · exfalso
        rw [h] at hs
        rw [coerceInt_malformed o2 "retries" s hs hm] at hr
        exact Except.noConfusion hr
      · exact h
    subst hnc
    have hg3 : getattr o3 "concurrency" = PyVal.str s := by
      rw [getattr_coerceInt_ok_ne o2 o3 "retries" "concurrency" (by decide) hr,
        hs]
    refine ⟨s, hm, ?_⟩
    unfold coerceInts intOptionNames
    rw [coerceIntsAux_cons, hr]
    dsimp only
    rw [coerceIntsAux_cons, coerceInt_malformed o3 "concurrency" s hg3 hm]

theorem getattr_foldl_default (ds : List (String × PyVal)) (o : Options)
    (n : String) (h : getattr o n ≠ PyVal.none) :
    getattr (ds.foldl
      (fun acc p => if getattr acc p.1 = PyVal.none then setattr acc p.1 p.2 else acc)
      o) n = getattr o n := by
  induction ds generalizing o with
  | nil => rfl
  | cons p ps ih =>
    have h2 : getattr
        (if getattr o p.1 = PyVal.none then setattr o p.1 p.2 else o) n
        = getattr o n := by
      by_cases hx : n = p.1
      · subst hx; simp [h]
      · split
        · exact getattr_setattr_ne _ _ _ _ hx
        · rfl
    simp only [List.foldl_cons]
    rw [ih _ (by rw [h2]; exact h), h2]

theorem getattr_applyDefaults_of_present (o : Options) (n : String)
    (h : getattr o n ≠ PyVal.none) :
    getattr (applyDefaults o) n = getattr o n :=
  getattr_foldl_default optionDefaults o n h

theorem getattr_foldl_default_mem (ds : List (String × PyVal)) (o : Options)
    (n : String) (d : PyVal) (hmem : (n, d) ∈ ds)
    (huniq : ∀ p ∈ ds, p.1 = n → p.2 = d) (hd : d ≠ PyVal.none)
    (h : getattr o n = PyVal.none) :
    getattr (ds.foldl
      (fun acc p => if getattr acc p.1 = PyVal.none then setattr acc p.1 p.2 else acc)
      o) n = d := by
  induction ds generalizing o with
  | nil => cases hmem
  | cons p ps ih =>
    simp only [List.foldl_cons]
    by_cases hx : p.1 = n
    · have hp2 : p.2 = d := huniq p (List.mem_cons_self p ps) hx
      have hstep : (if getattr o p.1 = PyVal.none then setattr o p.1 p.2 else o)
          = setattr o p.1 p.2 := by rw [hx, h]; simp
      rw [hstep]
      have hval : getattr (setattr o p.1 p.2) n = d := by
        rw [hx, hp2]; exact getattr_setattr_self o n d
      rw [getattr_foldl_default ps _ n (by rw [hval]; exact hd), hval]
    · have hstep : getattr
          (if getattr o p.1 = PyVal.none then setattr o p.1 p.2 else o) n
          = getattr o n := by
        split
        · exact getattr_setattr_ne _ _ _ _ (fun he => hx he.symm)
        · rfl
      have hmem2 : (n, d) ∈ ps := by
        cases hmem with
        | head => exact absurd rfl hx
        | tail _ hm => exact hm
      exact ih _ hmem2 (fun q hq => huniq q (List.mem_cons_of_mem p hq))
        (by rw [hstep]; exact h)

/-! ### Facts about the concrete option-name lists -/

theorem mainOption_not_section :
    ∀ n ∈ mainOptionNames, strStartsWith n ("swiftly" ++ "_") = false := by
  decide

theorem mainOption_upper :
    ∀ n ∈ mainOptionNames,
      strUpper ("swiftly" ++ "_" ++ n) = "SWIFTLY_" ++ strUpper n := by
  decide

theorem optionDefaults_uniq :
    ∀ q ∈ optionDefaults, ∀ p ∈ optionDefaults, p.1 = q.1 → p.2 = q.2 := by
  decide

theorem optionDefaults_ne_none : ∀ q ∈ optionDefaults, q.2 ≠ PyVal.none := by
  decide

theorem resolveOption_of_absent (env : Env) (conf : Conf) (o : Options)
    (n : String) (hn : n ∈ mainOptionNames) (h : getattr o n = PyVal.none) :
    resolveOption env conf o n "swiftly" =
      setattr o n
        (match Env.get env ("SWIFTLY_" ++ strUpper n) with
         | some s => PyVal.str s
         | Option.none =>
           match Conf.get conf "swiftly" n with
           | some s => PyVal.str s
           | Option.none => PyVal.none) := by
  have hpre := mainOption_not_section n hn
  have hup := mainOption_upper n hn
  unfold resolveOption
  rw [if_neg (by rw [h]; exact fun hc => hc rfl)]
  simp only [hpre, Bool.false_eq_true, if_false, hup]
  cases Env.get env ("SWIFTLY_" ++ strUpper n) with
  | some s => rfl
  | none => cases Conf.get conf "swiftly" n with
    | some s => rfl
    | none => rfl

/-! ### Case analysis of the backend phase -/

theorem head_ne_beq_false (args : List String) (hh : args.head? ≠ some "help") :
    (args.head? == some "help") = false := by
  cases hhead : args.head? with
  | none => rfl
  | some a =>
    refine beq_eq_false_iff_ne.mpr ?_
    intro he
    exact hh (by rw [hhead, he])

theorem backendPhase_help (o : Options) (args : List String) (env : Env)
    (ev : Bool) (td : String) (r : Int) (hh : args.head? = some "help") :
    backendPhase o args env ev td r = ParseOutcome.helpBypass o args := by
  simp [backendPhase, hh]

theorem backendPhase_local (o : Options) (args : List String) (env : Env)
    (ev : Bool) (td : String) (r : Int) (hh : args.head? ≠ some "help")
    (hl : truthy (getattr o "local") = true) :
    backendPhase o args env ev td r =
      ParseOutcome.proceed (Backend.localClient (getattr o "local")) o args := by
  simp [backendPhase, head_ne_beq_false args hh, hl]

theorem backendPhase_direct (o : Options) (args : List String) (env : Env)
    (ev : Bool) (td : String) (r : Int) (hh : args.head? ≠ some "help")
    (hl : truthy (getattr o "local") = false)
    (hd : truthy (getattr o "direct") = true) :
    backendPhase o args env ev td r =
      ParseOutcome.proceed
        (Backend.directClient (getattr o "direct") (r + 1) ev
          (getattr o "direct_object_ring")) o args := by
  simp [backendPhase, head_ne_beq_false args hh, hl, hd]

theorem backendPhase_noauth (o : Options) (args : List String) (env : Env)
    (ev : Bool) (td : String) (r : Int) (hh : args.head? ≠ some "help")
    (hl : truthy (getattr o "local") = false)
    (hd : truthy (getattr o "direct") = false)
    (ha : truthy (getattr o "auth_url") = false) :
    backendPhase o args env ev td r =
      ParseOutcome.failure "No Auth URL has been given.\n" := by
  simp [backendPhase, head_ne_beq_false args hh, hl, hd, ha]

theorem backendPhase_standard (o : Options) (args : List String) (env : Env)
    (ev : Bool) (td : String) (r : Int) (hh : args.head? ≠ some "help")
    (hl : truthy (getattr o "local") = false)
    (hd : truthy (getattr o "direct") = false)
    (ha : truthy (getattr o "auth_url") = true) :
    backendPhase o args env ev td r =
      ParseOutcome.proceed
        (Backend.standardClient (getattr o "auth_methods")
          (getattr o "auth_url") (getattr o "auth_tenant")
          (getattr o "auth_user") (getattr o "auth_key")
          (if truthy (getattr o "cache_auth") then some (authCachePathFor td env)
           else Option.none)
          (getattr o "region") (getattr o "snet") (r + 1) ev
          (getattr o "proxy")) o args := by
  simp [backendPhase, head_ne_beq_false args hh, hl, hd, ha]

/-! ### Claims -/

/-- C1: for every recognized main option, `_resolve_option` consults the
sources in the fixed order command line, then environment variable
`SWIFTLY_<OPTION_NAME_UPPER>`, then section `"swiftly"` of the
configuration file, and otherwise leaves `None` so that only then the
built-in default is filled in; the first non-absent source determines the
value (a command-line value always wins), and the default pass never
overwrites an already-resolved value while it does supply the built-in
default when every source was absent. -/
theorem C1_option_cascade (o : Options) (env : Env) (conf : Conf) (n : String)
    (hn : n ∈ mainOptionNames) :
    (getattr o n ≠ PyVal.none →
      getattr (resolveOption env conf o n "swiftly") n = getattr o n)
    ∧ (∀ v, getattr o n = PyVal.none →
      Env.get env ("SWIFTLY_" ++ strUpper n) = some v →
      getattr (resolveOption env conf o n "swiftly") n = PyVal.str v)
    ∧ (∀ w, getattr o n = PyVal.none →
      Env.get env ("SWIFTLY_" ++ strUpper n) = Option.none →
      Conf.get conf "swiftly" n = some w →
      getattr (resolveOption env conf o n "swiftly") n = PyVal.str w)
    ∧ (getattr o n = PyVal.none →
      Env.get env ("SWIFTLY_" ++ strUpper n) = Option.none →
      Conf.get conf "swiftly" n = Option.none →
      getattr (resolveOption env conf o n "swiftly") n = PyVal.none)
    ∧ (∀ o2 : Options, getattr o2 n ≠ PyVal.none →
      getattr (applyDefaults o2) n = getattr o2 n)
    ∧ (∀ o2 : Options, ∀ d, (n, d) ∈ optionDefaults →
      getattr o2 n = PyVal.none → getattr (applyDefaults o2) n = d) := by
  refine ⟨?_, ?_, ?_, ?_, ?_, ?_⟩
  · intro h
    rw [resolveOption_of_present env conf o n "swiftly" h]
  · intro v h hv
    rw [resolveOption_of_absent env conf o n hn h, hv]
    exact getattr_setattr_self o n (PyVal.str v)
  · intro w h hv hc
    rw [resolveOption_of_absent env conf o n hn h, hv, hc]
    exact getattr_setattr_self o n (PyVal.str w)
  · intro h hv hc
    rw [resolveOption_of_absent env conf o n hn h, hv, hc]
    exact getattr_setattr_self o n PyVal.none
  · intro o2 h
    exact getattr_applyDefaults_of_present o2 n h
  · intro o2 d hmem h
    exact getattr_foldl_default_mem optionDefaults o2 n d hmem
      (fun p hp => optionDefaults_uniq (n, d) hmem p hp)
      (optionDefaults_ne_none (n, d) hmem) h

/-- Witness for C1 at a concrete input: with no command-line `auth_url`,
the environment variable `SWIFTLY_AUTH_URL` wins over a conflicting
configuration-file value. -/
theorem C1_option_cascade_witness :
    getattr
      (resolveOption { vars := [("SWIFTLY_AUTH_URL", "http://env.example")] }
        { sections := [("swiftly", [("auth_url", "http://conf.example")])] }
        [] "auth_url" "swiftly") "auth_url" = PyVal.str "http://env.example" :=
  (C1_option_cascade []
    { vars := [("SWIFTLY_AUTH_URL", "http://env.example")] }
    { sections := [("swiftly", [("auth_url", "http://conf.example")])] }
    "auth_url" (by decide)).2.1 "http://env.example" rfl rfl

/-- C2 (code bug evaluation): with `--no-snet` on the command line
(`no_snet = True`), `SWIFTLY_SNET=true` and `SWIFTLY_AUTH_URL` set in the
environment, `no_snet` resolves truthy, yet the standard backend is
constructed with `snet=True`: `_parse_args` never consults `no_snet` (nor
`no_cache_auth`, `no_cdn`, `no_verbose`); only `no_eventlet` is applied,
at lines 354-355. -/
theorem C2_no_snet_not_applied :
    (exceptBackend (parseArgsTail [("no_snet", PyVal.bool true)] ["get"]
        { vars := [("SWIFTLY_SNET", "true"),
                   ("SWIFTLY_AUTH_URL", "http://auth.example")] }
        (ConfFile.readable []) false "/tmp")).bind backendSnet
      = some (PyVal.bool true)
    ∧ (exceptOptions (parseArgsTail [("no_snet", PyVal.bool true)] ["get"]
        { vars := [("SWIFTLY_SNET", "true"),
                   ("SWIFTLY_AUTH_URL", "http://auth.example")] }
        (ConfFile.readable []) false "/tmp")).map
        (fun o => truthy (getattr o "no_snet")) = some true := by
  exact ⟨rfl, rfl⟩

/-- C3: backend selection is total, exclusive and ordered: outside the
`help` bypass, a truthy `local` yields the Local backend (even when
`direct` is also set), otherwise a truthy `direct` yields the Direct
backend, and otherwise the Standard backend is attempted (failing when no
auth URL resolved, constructed otherwise). -/
theorem C3_backend_selection (o : Options) (args : List String) (env : Env)
    (ev : Bool) (td : String) (r : Int) (hh : args.head? ≠ some "help") :
    (truthy (getattr o "local") = true →
      backendPhase o args env ev td r =
        ParseOutcome.proceed (Backend.localClient (getattr o "local")) o args)
    ∧ (truthy (getattr o "local") = false → truthy (getattr o "direct") = true →
      backendPhase o args env ev td r =
        ParseOutcome.proceed
          (Backend.directClient (getattr o "direct") (r + 1) ev
            (getattr o "direct_object_ring")) o args)
    ∧ (truthy (getattr o "local") = false → truthy (getattr o "direct") = false →
      truthy (getattr o "auth_url") = false →
      backendPhase o args env ev td r =
        ParseOutcome.failure "No Auth URL has been given.\n")
    ∧ (truthy (getattr o "local") = false → truthy (getattr o "direct") = false →
      truthy (getattr o "auth_url") = true →
      backendPhase o args env ev td r =
        ParseOutcome.proceed
          (Backend.standardClient (getattr o "auth_methods")
            (getattr o "auth_url") (getattr o "auth_tenant")
            (getattr o "auth_user") (getattr o "auth_key")
            (if truthy (getattr o "cache_auth") then some (authCachePathFor td env)
             else Option.none)
            (getattr o "region") (getattr o "snet") (r + 1) ev
            (getattr o "proxy")) o args) :=
  ⟨fun hl => backendPhase_local o args env ev td r hh hl,
   fun hl hd => backendPhase_direct o args env ev td r hh hl hd,
   fun hl hd ha => backendPhase_noauth o args env ev td r hh hl hd ha,
   fun hl hd ha => backendPhase_standard o args env ev td r hh hl hd ha⟩

/-- Witness for C3 at a concrete input: with both a local path and a
direct path set, selection yields the Local backend. -/
theorem C3_backend_selection_witness :
    backendPhase
      [("local", PyVal.str "/fake"), ("direct", PyVal.str "/v1/AUTH_test")]
      ["get"] { vars := [] } false "/tmp" 4 =
      ParseOutcome.proceed (Backend.localClient (PyVal.str "/fake"))
        [("local", PyVal.str "/fake"), ("direct", PyVal.str "/v1/AUTH_test")]
        ["get"] :=
  (C3_backend_selection
    [("local", PyVal.str "/fake"), ("direct", PyVal.str "/v1/AUTH_test")]
    ["get"] { vars := [] } false "/tmp" 4 (by decide)).1 rfl

/-- C4: when neither the local nor the direct path is set and no auth URL
resolves from any source, `_parse_args` stops before any backend is
constructed: the outcome is the `failure` variant (no `Backend` value
exists in it), `__call__` writes the single user-facing line
`"No Auth URL has been given.\n"` to stderr, returns exit code 1, and no
command is dispatched. -/
theorem C4_no_auth_url_failure (cliO : Options) (args : List String)
    (env : Env) (cf : ConfFile) (ev : Bool) (td : String)
    (run : String → List String → Option PyException) (tb : String)
    (o : Options) (r : Int)
    (hres : resolvedOptions cliO env cf = Except.ok o)
    (hret : pyIntCall (getattr o "retries") = Except.ok r)
    (hh : args.head? ≠ some "help")
    (hl : truthy (getattr o "local") = false)
    (hd : truthy (getattr o "direct") = false)
    (ha : truthy (getattr o "auth_url") = false) :
    parseArgsTail cliO args env cf ev td =
      Except.ok (ParseOutcome.failure "No Auth URL has been given.\n")
    ∧ cliCall cliO args env cf ev td run tb =
      Except.ok { exitCode := 1, stderr := "No Auth URL has been given.\n",
                  dispatched := Option.none } := by
  have horet : "retries" ≠ "local" ∧ "retries" ≠ "direct"
      ∧ "retries" ≠ "auth_url" := by decide
  have hl2 : truthy (getattr (setattr o "retries" (PyVal.int r)) "local") = false := by
    rw [getattr_setattr_ne o "retries" "local" (PyVal.int r) (Ne.symm horet.1)]
    exact hl
  have hd2 : truthy (getattr (setattr o "retries" (PyVal.int r)) "direct") = false := by
    rw [getattr_setattr_ne o "retries" "direct" (PyVal.int r) (Ne.symm horet.2.1)]
    exact hd
  have ha2 : truthy (getattr (setattr o "retries" (PyVal.int r)) "auth_url") = false := by
    rw [getattr_setattr_ne o "retries" "auth_url" (PyVal.int r) (Ne.symm horet.2.2)]
    exact ha
  have hbp := backendPhase_noauth (setattr o "retries" (PyVal.int r)) args env
    (contextEventlet o ev) td r hh hl2 hd2 ha2
  have hpt : parseArgsTail cliO args env cf ev td =
      Except.ok (ParseOutcome.failure "No Auth URL has been given.\n") := by
    unfold parseArgsTail
    rw [hres]
    dsimp only
    rw [hret]
    dsimp only
    rw [hbp]
  exact ⟨hpt, by unfold cliCall; rw [hpt]⟩

/-- Witness for C4 at a concrete input: nothing supplied anywhere and the
command token `get`. -/
theorem C4_no_auth_url_failure_witness :
    cliCall [] ["get"] { vars := [] } (ConfFile.readable []) false "/tmp"
      (fun _ _ => Option.none) "" =
      Except.ok { exitCode := 1, stderr := "No Auth URL has been given.\n",
                  dispatched := Option.none } :=
  (C4_no_auth_url_failure [] ["get"] { vars := [] } (ConfFile.readable [])
    false "/tmp" (fun _ _ => Option.none) "" emptyResolved 4
    rfl rfl (by decide) rfl rfl rfl).2

/-- C5: when the dispatched command raises an error whose `text` attribute
is a non-empty string, `_perform_command` writes the single line
`"ERROR <text>\n"` to stderr and returns the error's own `code` attribute
when present, else 1. -/
theorem C5_error_with_text
    (run : String → List String → Option PyException) (tb : String)
    (args0 : String) (rest : List String) (e : PyException) (t : String)
    (hcmd : commandNames.contains (if args0 == "for" then "fordo" else args0)
      = true)
    (hrun : run (if args0 == "for" then "fordo" else args0) rest = some e)
    (htext : e.text = some t) (ht : t ≠ "") :
    performCommand commandNames run tb args0 rest =
      { stderr := "ERROR " ++ t ++ "\n", exitCode := e.code.getD 1,
        dispatched := some (if args0 == "for" then "fordo" else args0) } := by
  simp at hcmd hrun
  simp [performCommand, hcmd, hrun, htext, ht]

/-- Witness for C5 at the spec's example: an error with text
`"quota exceeded"` and code 3 produces stderr `"ERROR quota exceeded\n"`
and exit code 3. -/
theorem C5_error_with_text_witness :
    performCommand commandNames
      (fun _ _ => some { text := some "quota exceeded", code := some 3 })
      "" "get" [] =
      { stderr := "ERROR quota exceeded\n", exitCode := 3,
        dispatched := some "get" } :=
  C5_error_with_text
    (fun _ _ => some { text := some "quota exceeded", code := some 3 })
    "" "get" [] { text := some "quota exceeded", code := some 3 }
    "quota exceeded" (by decide) rfl rfl (by decide)

/-- C6 counterexample: a dispatched command raising an error with no
`text` attribute but with `code = 3` gets the full traceback written, yet
the dispatcher returns exit code 3, not 1 as the claim states
(`_perform_command` ends with `return getattr(err, 'code', 1)` on every
exception path). -/
theorem C6_counterexample :
    performCommand commandNames
      (fun _ _ => some { text := Option.none, code := some 3 })
      "Traceback (most recent call last): RuntimeError" "get" [] =
      { stderr := "Traceback (most recent call last): RuntimeError\n",
        exitCode := 3, dispatched := some "get" }
    ∧ (performCommand commandNames
        (fun _ _ => some { text := Option.none, code := some 3 })
        "Traceback (most recent call last): RuntimeError" "get" []).exitCode
      ≠ 1 := by
  exact ⟨rfl, by decide⟩

/-- C6 amended: when the dispatched command raises an error with no `text`
attribute, `_perform_command` writes the full diagnostic (the formatted
traceback, plus a newline) to stderr and returns the error's own `code`
attribute when present, else 1. -/
theorem C6_no_text_traceback
    (run : String → List String → Option PyException) (tb : String)
    (args0 : String) (rest : List String) (e : PyException)
    (hcmd : commandNames.contains (if args0 == "for" then "fordo" else args0)
      = true)
    (hrun : run (if args0 == "for" then "fordo" else args0) rest = some e)
    (htext : e.text = Option.none) :
    performCommand commandNames run tb args0 rest =
      { stderr := tb ++ "\n", exitCode := e.code.getD 1,
        dispatched := some (if args0 == "for" then "fordo" else args0) } := by
  simp at hcmd hrun
  simp [performCommand, hcmd, hrun, htext]

/-- Witness for C6 amended: an error with no `text` attribute and no
`code` attribute produces the traceback on stderr and exit code 1. -/
theorem C6_no_text_traceback_witness :
    performCommand commandNames
      (fun _ _ => some { text := Option.none, code := Option.none })
      "Traceback (most recent call last): KeyError" "put" [] =
      { stderr := "Traceback (most recent call last): KeyError\n",
        exitCode := 1, dispatched := some "put" } :=
  C6_no_text_traceback
    (fun _ _ => some { text := Option.none, code := Option.none })
    "Traceback (most recent call last): KeyError" "put" []
    { text := Option.none, code := Option.none } (by decide) rfl rfl

/-- C10: when the dispatched command raises an error whose `text`
attribute exists but is empty (falsy), `_perform_command` writes nothing
at all to stderr (neither an ERROR line nor a trace) and still returns the
error's `code` attribute when present, else 1. -/
theorem C10_empty_text_silent
    (run : String → List String → Option PyException) (tb : String)
    (args0 : String) (rest : List String) (e : PyException)
    (hcmd : commandNames.contains (if args0 == "for" then "fordo" else args0)
      = true)
    (hrun : run (if args0 == "for" then "fordo" else args0) rest = some e)
    (htext : e.text = some "") :
    performCommand commandNames run tb args0 rest =
      { stderr := "", exitCode := e.code.getD 1,
        dispatched := some (if args0 == "for" then "fordo" else args0) } := by
  simp at hcmd hrun
  simp [performCommand, hcmd, hrun, htext]

/-- Witness for C10: an error with `text` present but empty and `code = 7`
writes nothing to stderr and exits 7. -/
theorem C10_empty_text_silent_witness :
    performCommand commandNames
      (fun _ _ => some { text := some "", code := some 7 })
      "Traceback (most recent call last): ValueError" "get" [] =
      { stderr := "", exitCode := 7, dispatched := some "get" } :=
  C10_empty_text_silent
    (fun _ _ => some { text := some "", code := some 7 })
    "Traceback (most recent call last): ValueError" "get" []
    { text := some "", code := some 7 } (by decide) rfl rfl

/-- C7: when the first remaining token is `"help"`, `_parse_args` returns
at line 386 before any backend construction, so the invocation succeeds
with exit code 0 even though no auth URL is configured anywhere (neither
`cliO` nor `env` is constrained here) and the configuration file is
malformed — which degrades to the empty store and is never fatal. -/
theorem C7_help_bypass (cliO : Options) (rest : List String) (env : Env)
    (ev : Bool) (td : String)
    (run : String → List String → Option PyException) (tb : String)
    (o : Options) (r : Int)
    (hres : resolvedOptions cliO env ConfFile.malformed = Except.ok o)
    (hret : pyIntCall (getattr o "retries") = Except.ok r)
    (hrun : run "help" rest = helpCommandRun rest) :
    parseArgsTail cliO ("help" :: rest) env ConfFile.malformed ev td =
      Except.ok (ParseOutcome.helpBypass (setattr o "retries" (PyVal.int r))
        ("help" :: rest))
    ∧ cliCall cliO ("help" :: rest) env ConfFile.malformed ev td run tb =
      Except.ok { exitCode := 0, stderr := "", dispatched := some "help" }
    ∧ loadConf ConfFile.malformed = { sections := [] } := by
  have hbp := backendPhase_help (setattr o "retries" (PyVal.int r))
    ("help" :: rest) env (contextEventlet o ev) td r rfl
  have hpt : parseArgsTail cliO ("help" :: rest) env ConfFile.malformed ev td =
      Except.ok (ParseOutcome.helpBypass (setattr o "retries" (PyVal.int r))
        ("help" :: rest)) := by
    unfold parseArgsTail
    rw [hres]
    dsimp only
    rw [hret]
    dsimp only
    rw [hbp]
  have hrun2 : run "help" rest = Option.none := by rw [hrun]; rfl
  have hperf : performCommand commandNames run tb "help" rest =
      { stderr := "", exitCode := 0, dispatched := some "help" } := by
    simp [performCommand, hrun2]
    decide
  refine ⟨hpt, ?_, rfl⟩
  unfold cliCall
  rw [hpt]
  dsimp only
  rw [hperf]

/-- Witness for C7 at a concrete input: nothing supplied anywhere (so no
auth URL resolves), a malformed configuration file, and the single token
`help`. -/
theorem C7_help_bypass_witness :
    cliCall [] ["help"] { vars := [] } ConfFile.malformed false "/tmp"
      (fun c as => if c == "help" then helpCommandRun as else Option.none) "" =
      Except.ok { exitCode := 0, stderr := "", dispatched := some "help" } :=
  (C7_help_bypass [] [] { vars := [] } false "/tmp"
    (fun c as => if c == "help" then helpCommandRun as else Option.none) ""
    emptyResolved 4 rfl rfl rfl).2.1

/-- C8 counterexample: with `--retries zz` on the command line (a
malformed integer string), `_parse_args` raises an uncaught `ValueError`
(the `Except.error` outcome) instead of returning normally — there is no
single-line user message written by the CLI for this case, contrary to
the claim. -/
theorem C8_counterexample :
    cliCall [("retries", PyVal.str "zz")] ["get"] { vars := [] }
      (ConfFile.readable []) false "/tmp" (fun _ _ => Option.none) "" =
      Except.error (PyError.valueError "zz") := rfl

/-- C8 amended: whenever the cascade resolves `retries` or `concurrency`
(from the command line, the environment or the configuration file — all of
which flow into `resolveAll`) to a string that is not a well-formed
integer, the integer coercion loop raises `ValueError` inside
`_parse_args`; nothing in `cli.py` catches it, so `__call__` ends in the
uncaught exception (the interpreter then prints a traceback and exits
nonzero) and no command ever runs — rather than the CLI itself writing a
single-line user message.  The error's payload is itself one of the
malformed integer strings (when both options are malformed, the loop
order makes it the `retries` one). -/
theorem C8_malformed_int_uncaught (cliO : Options) (args : List String)
    (env : Env) (cf : ConfFile) (ev : Bool) (td : String)
    (run : String → List String → Option PyException) (tb : String)
    (n : String) (hn : n ∈ intOptionNames) (s : String)
    (hs : getattr (resolveAll env (loadConf cf) cliO) n = PyVal.str s)
    (hm : pythonInt s = Option.none) :
    ∃ t, pythonInt t = Option.none
      ∧ resolvedOptions cliO env cf = Except.error (PyError.valueError t)
      ∧ cliCall cliO args env cf ev td run tb =
          Except.error (PyError.valueError t) := by
  have hn2 : n = "retries" ∨ n = "concurrency" := by
    simp [intOptionNames] at hn
    exact hn
  have hnb : ∀ x ∈ boolOptionNames, n ≠ x := by
    rcases hn2 with h | h
    · subst h; decide
    · subst h; decide
  have hs2 : getattr (coerceBools (resolveAll env (loadConf cf) cliO)) n
      = PyVal.str s := by
    unfold coerceBools
    rw [getattr_foldl_coerceBool boolOptionNames _ n hnb, hs]
  obtain ⟨t, ht, hci⟩ :=
    coerceInts_malformed (coerceBools (resolveAll env (loadConf cf) cliO))
      n hn s hs2 hm
  have h4 : resolvedOptions cliO env cf = Except.error (PyError.valueError t) := by
    unfold resolvedOptions
    dsimp only
    rw [hci]
  refine ⟨t, ht, h4, ?_⟩
  unfold cliCall parseArgsTail
  rw [h4]

/-- Witness for C8 amended at a concrete input: `SWIFTLY_CONCURRENCY=3x`
in the environment, no command-line value anywhere, command token `put` —
an environment-sourced malformed `concurrency`. -/
theorem C8_malformed_int_uncaught_witness :
    ∃ t, pythonInt t = Option.none
      ∧ resolvedOptions [] { vars := [("SWIFTLY_CONCURRENCY", "3x")] }
          (ConfFile.readable []) = Except.error (PyError.valueError t)
      ∧ cliCall [] ["put"] { vars := [("SWIFTLY_CONCURRENCY", "3x")] }
          (ConfFile.readable []) false "/tmp" (fun _ _ => Option.none) "" =
          Except.error (PyError.valueError t) :=
  C8_malformed_int_uncaught [] ["put"]
    { vars := [("SWIFTLY_CONCURRENCY", "3x")] } (ConfFile.readable [])
    false "/tmp" (fun _ _ => Option.none) "" "concurrency" (by decide)
    "3x" rfl rfl

/-- C9 counterexample: with auth caching enabled, user `alice` and
temporary directory `/tmp`, the Standard backend receives the auth-cache
path `/tmp/alice.swiftly` — the suffix is `.swiftly` (as the option's own
help text also says), not `.clientcache` as the claim states. -/
theorem C9_counterexample :
    (exceptBackend (parseArgsTail
        [("cache_auth", PyVal.bool true),
         ("auth_url", PyVal.str "http://auth.example")]
        ["get"] { vars := [("USER", "alice")] } (ConfFile.readable []) false
        "/tmp")).bind backendAuthCachePath = some (some "/tmp/alice.swiftly")
    ∧ "/tmp/alice.swiftly" ≠ "/tmp/alice.clientcache" := ⟨rfl, by decide⟩

/-- C9 amended: when auth caching is enabled and the Standard backend is
selected, the auth-cache path passed to the constructor is the OS
temporary directory joined with `<user>.swiftly`, where `<user>` is the
`USER` environment variable (default `"user"`). -/
theorem C9_cache_path_swiftly (o : Options) (args : List String) (env : Env)
    (ev : Bool) (td : String) (r : Int) (hh : args.head? ≠ some "help")
    (hl : truthy (getattr o "local") = false)
    (hd : truthy (getattr o "direct") = false)
    (ha : truthy (getattr o "auth_url") = true)
    (hc : truthy (getattr o "cache_auth") = true) :
    (outcomeBackend (backendPhase o args env ev td r)).bind backendAuthCachePath
      = some (some (osPathJoin td
          (((Env.get env "USER").getD "user") ++ ".swiftly"))) := by
  rw [backendPhase_standard o args env ev td r hh hl hd ha]
  simp [outcomeBackend, backendAuthCachePath, hc, authCachePathFor]

/-- Witness for C9 amended at a concrete input: no `USER` in the
environment falls back to `user`, giving `/tmp/user.swiftly`. -/
theorem C9_cache_path_swiftly_witness :
    (outcomeBackend (backendPhase
        [("cache_auth", PyVal.bool true),
         ("auth_url", PyVal.str "http://auth.example")]
        ["get"] { vars := [] } false "/tmp" 4)).bind backendAuthCachePath
      = some (some "/tmp/user.swiftly") :=
  C9_cache_path_swiftly
    [("cache_auth", PyVal.bool true),
     ("auth_url", PyVal.str "http://auth.example")]
    ["get"] { vars := [] } false "/tmp" 4 (by decide) rfl rfl rfl rfl

end Swiftly
